import Mathlib

/-!
Verification of the CoreMIDI input-port driver
(`src/framework/midi/internal/platform/osx/coremidiinport.cpp`) of MuseScore.

The C++ class `CoreMidiInPort` is shallowly embedded: its mutable fields
become a Lean state record (`PortState`), the OS MIDI service (CoreMIDI)
becomes an explicit environment record of pure functions (`OS`), and each
member function becomes a Lean function from state (and environment) to
state plus results/logs.  C++ exceptions (`std::stoi` throwing) are made
explicit with `Except`.
-/

namespace CoreMidi

/-- Error kinds from `midierrors.h` used by this module. -/
inductive Err where
  | MidiFailedConnect
  | MidiNotConnected
  deriving DecidableEq, Repr

/-- `Ret` return type: `Ret(true)` is success, `make_ret(err, msg)` is an
error of the given class carrying a message (`make_ret(err)` carries ""). -/
inductive Ret where
  | success
  | error (e : Err) (msg : String)
  deriving DecidableEq, Repr

/-- A C++ exception escaping a member function (here only
`std::invalid_argument` thrown by `std::stoi`). -/
inductive CppExn where
  | invalidArgument
  deriving DecidableEq, Repr

/-- Log messages produced via `LOGE`/`LOGW`/`LOGI`. -/
inductive LogMsg where
  | error (msg : String)
  | warn (msg : String)
  | info (msg : String)
  deriving DecidableEq, Repr

/-- `OSStatus` result codes of the CoreMIDI calls. -/
abbrev OSStatus := Int

def noErr : OSStatus := 0

def kMIDINoConnection : OSStatus := -10833

/-- `struct CoreMidiInPort::Core`: the native handles.  `MIDIClientRef`,
`MIDIPortRef` and `MIDIEndpointRef` are integer handles where `0` is null. -/
structure Core where
  client : Nat
  inputPort : Nat
  sourceId : Nat
  deviceID : Int
  deriving DecidableEq, Repr

/-- The mutable state of one `CoreMidiInPort` object: the `Core` handles
plus `m_deviceID` and the `m_running` flag inherited from
`AbstractMidiInPort` (the running flag's initial value `false` is modelled
from the spec, its declaration is not under src/). -/
structure PortState where
  core : Core
  m_deviceID : String
  m_running : Bool
  deriving DecidableEq, Repr

/-- State right after the constructor: `Core` zero-initialises the handles
with `deviceID = -1`; `m_deviceID` is an empty string. -/
def constructedState : PortState :=
  { core := { client := 0, inputPort := 0, sourceId := 0, deviceID := -1 }
    m_deviceID := ""
    m_running := false }

/-- The external OS MIDI service, as the narrow capability set this module
calls: source count, source lookup by index, display-name lookup
(`none` models a `MIDIObjectGetStringProperty` failure), and the
port-to-source bind/unbind calls returning an `OSStatus`. -/
structure OS where
  numSources : Nat
  getSource : Int → Nat
  displayName : Nat → Option String
  connectSource : Nat → Nat → OSStatus
  disconnectSource : Nat → Nat → OSStatus

/-- `CoreMidiInPort::isConnected`: non-null source handle and non-empty
device identifier. -/
def isConnected (s : PortState) : Bool :=
  s.core.sourceId != 0 && s.m_deviceID != ""

/-- `std::stoi`: skip leading whitespace, optional sign, then a maximal
run of decimal digits; throws `std::invalid_argument` when no digit is
found.  (The `std::out_of_range` overflow case is not modelled; all inputs
of interest are small.) -/
def leadingNat (cs : List Char) : Option Nat :=
  let ds := cs.takeWhile Char.isDigit
  if ds.isEmpty then none
  else some (ds.foldl (fun a c => a * 10 + (c.toNat - '0'.toNat)) 0)

def stoi (str : String) : Except CppExn Int :=
  let cs := str.data.dropWhile Char.isWhitespace
  match cs with
  | '-' :: rest =>
    match leadingNat rest with
    | none => Except.error CppExn.invalidArgument
    | some n => Except.ok (-(n : Int))
  | '+' :: rest =>
    match leadingNat rest with
    | none => Except.error CppExn.invalidArgument
    | some n => Except.ok (n : Int)
  | _ =>
    match leadingNat cs with
    | none => Except.error CppExn.invalidArgument
    | some n => Except.ok (n : Int)

/-- `CoreMidiInPort::stop`: early-returns with an error log when not
connected; otherwise calls `MIDIPortDisconnectSource`, treats
`kMIDINoConnection` as benign (info log), logs any other non-`noErr`
status, and sets `m_running = false`. -/
def stop (os : OS) (s : PortState) : PortState × List LogMsg :=
  if !isConnected s then
    (s, [LogMsg.error "midi port is not connected"])
  else
    let result := os.disconnectSource s.core.inputPort s.core.sourceId
    let logs :=
      if result = kMIDINoConnection then [LogMsg.info "wasn't started"]
      else if result = noErr then []
      else [LogMsg.error "can't disconnect midi port"]
    ({ s with m_running := false }, logs)

/-- `CoreMidiInPort::disconnect`: no-op when not connected; otherwise
`stop()` then clear the source handle and the device identifier. -/
def disconnect (os : OS) (s : PortState) : PortState :=
  if !isConnected s then s
  else
    let s1 := (stop os s).1
    { s1 with core := { s1.core with sourceId := 0 }, m_deviceID := "" }

/-- `CoreMidiInPort::run`: requires connected state, else
`MidiNotConnected`; binds the input port to the source via
`MIDIPortConnectSource`; sets `m_running` accordingly. -/
def run (os : OS) (s : PortState) : PortState × Ret :=
  if !isConnected s then (s, Ret.error Err.MidiNotConnected "")
  else
    let result := os.connectSource s.core.inputPort s.core.sourceId
    if result = noErr then ({ s with m_running := true }, Ret.success)
    else ({ s with m_running := false }, Ret.error Err.MidiFailedConnect "")

/-- `CoreMidiInPort::connect`: disconnect first if connected; fail with
`MidiFailedConnect` when the client or the input port was never created;
parse the device id with `std::stoi` (whose `std::invalid_argument`
escapes the function — modelled as the `Except.error` component, paired
with the object state at the throw point); resolve the source via
`MIDIGetSource`, failing with `MidiFailedConnect` when it is null;
store `m_deviceID` and call `run()`. -/
def connectBody (os : OS) (s : PortState) (deviceID : String) :
    PortState × Except CppExn Ret :=
  if s.core.client = 0 then
    (s, Except.ok (Ret.error Err.MidiFailedConnect "failed create client"))
  else if s.core.inputPort = 0 then
    (s, Except.ok (Ret.error Err.MidiFailedConnect "failed create port"))
  else
    match stoi deviceID with
    | Except.error exn => (s, Except.error exn)
    | Except.ok idx =>
      let s := { s with core := { s.core with deviceID := idx, sourceId := os.getSource idx } }
      if s.core.sourceId = 0 then
        (s, Except.ok (Ret.error Err.MidiFailedConnect "failed get source"))
      else
        let s := { s with m_deviceID := deviceID }
        let r := run os s
        (r.1, Except.ok r.2)

def connect (os : OS) (s : PortState) (deviceID : String) :
    PortState × Except CppExn Ret :=
  connectBody os (if isConnected s then disconnect os s else s) deviceID

/-- One entry of the device list (`MidiDevice`). -/
structure MidiDevice where
  id : String
  name : String
  deriving DecidableEq, Repr

/-- The source indices queried by `CoreMidiInPort::devices`: the loop is
`for (sourceIndex = 0; sourceIndex <= sources; sourceIndex++)`, i.e. the
indices `0, 1, ..., sources` — both bounds inclusive. -/
def queriedIndices (sources : Nat) : List Nat :=
  List.range (sources + 1)

/-- The body of the `devices` loop for one index: skip when
`MIDIGetSource` returns null; skip (after an error log) when the
display-name lookup fails; otherwise produce a device whose id is the
decimal rendering of the index. -/
def queryDevice (os : OS) (sourceIndex : Nat) : Option MidiDevice :=
  let sourceRef := os.getSource (Int.ofNat sourceIndex)
  if sourceRef ≠ 0 then
    match os.displayName sourceRef with
    | none => none
    | some name => some { id := toString sourceIndex, name := name }
  else none

/-- `CoreMidiInPort::devices`. -/
def devices (os : OS) : List MidiDevice :=
  (queriedIndices os.numSources).filterMap (queryDevice os)

/-! ## Structural-change notification handler -/

/-- CoreMIDI object types relevant to the handler's checks. -/
inductive MIDIObjectType where
  | source
  | device
  | destination
  | other
  deriving DecidableEq, Repr

/-- A property name carried by a `kMIDIMsgPropertyChanged` notification,
as far as the handler's `CFStringCompare` checks distinguish them. -/
inductive PropName where
  | displayName
  | name
  | other
  deriving DecidableEq, Repr

/-- The `MIDINotification` messages dispatched on in the handler.  The
`sizeOk` flag models the `messageSize == sizeof(...)` corruption check. -/
inductive MIDINotificationMsg where
  | objectAdded (childType : MIDIObjectType) (child : Nat) (sizeOk : Bool)
  | objectRemoved (childType : MIDIObjectType) (child : Nat) (sizeOk : Bool)
  | propertyChanged (objectType : MIDIObjectType) (propertyName : PropName) (sizeOk : Bool)
  | setupChanged
  | thruConnectionsChanged
  | serialPortOwnerChanged
  | ioError
  deriving DecidableEq, Repr

/-- Observable actions the notification handler performs, in execution
order. -/
inductive HandlerAction where
  | disconnected
  | devicesChangedNotify
  | logWarning
  deriving DecidableEq, Repr

/-- One trace entry: an action together with the port state at the moment
the action is performed. -/
structure TraceEntry where
  action : HandlerAction
  stateAtAction : PortState
  deriving DecidableEq, Repr

/-- `onCoreMidiNotificationReceived` (the static lambda registered with
`MIDIClientCreate`): add/remove notifications whose child is a source
trigger a devices-changed notify, after a forced `disconnect()` when a
removal matches the currently connected source; display-name or name
property changes on devices/sources trigger a notify; everything else is
ignored.  Returns the new state and the ordered action trace. -/
def onCoreMidiNotificationReceived (os : OS) (s : PortState)
    (n : MIDINotificationMsg) : PortState × List TraceEntry :=
  match n with
  | MIDINotificationMsg.objectAdded childType _ sizeOk =>
    if !sizeOk then (s, [⟨HandlerAction.logWarning, s⟩])
    else if childType ≠ MIDIObjectType.source then (s, [])
    else (s, [⟨HandlerAction.devicesChangedNotify, s⟩])
  | MIDINotificationMsg.objectRemoved childType child sizeOk =>
    if !sizeOk then (s, [⟨HandlerAction.logWarning, s⟩])
    else if childType ≠ MIDIObjectType.source then (s, [])
    -- the source's unconditional notify after the optional disconnect is
    -- inlined into the two branches of the removal check
    else if isConnected s && child == s.core.sourceId then
      (disconnect os s,
       [⟨HandlerAction.disconnected, disconnect os s⟩,
        ⟨HandlerAction.devicesChangedNotify, disconnect os s⟩])
    else (s, [⟨HandlerAction.devicesChangedNotify, s⟩])
  | MIDINotificationMsg.propertyChanged objectType propertyName sizeOk =>
    if !sizeOk then (s, [⟨HandlerAction.logWarning, s⟩])
    else if objectType ≠ MIDIObjectType.device
            && objectType ≠ MIDIObjectType.source then (s, [])
    else if propertyName = PropName.displayName ∨ propertyName = PropName.name then
      (s, [⟨HandlerAction.devicesChangedNotify, s⟩])
    else (s, [])
  | _ => (s, [])

/-! ## Packet decode (receive callbacks) -/

/-- Modelled from the spec: the domain `Event` type
(`framework/midi/event.h`, not under src/) — "a decoded MIDI message
(status + data bytes, up to a small fixed word count)". -/
structure Event where
  words : List Nat
  deriving DecidableEq, Repr

/-- Modelled from the spec: `Event::fromRawData(words, wordCount)` decodes
a packet of `wordCount` words "into one domain Event". -/
def Event.fromRawData (words : List Nat) (wordCount : Nat) : Event :=
  ⟨words.take wordCount⟩

/-- Modelled from the spec: `Event::fromMIDI10Package(msg).toMIDI20()` —
the legacy (pre-macOS 11) decode of one packed 32-bit MIDI 1.0 message
into one domain Event. -/
def Event.fromMIDI10Package (message : Nat) : Event :=
  ⟨[message]⟩

/-- Modelled from the spec: the `if (e)` truthiness check on a decoded
event — per the spec a packet of size 1..4 always decodes "into one
domain Event", so the check passes. -/
def Event.toBool (_ : Event) : Bool := true

/-- A `MIDIEventPacket` of the macOS ≥ 11 `MIDIEventList` callback:
timestamp, word count, and the 32-bit words. -/
structure MIDIEventPacket where
  timeStamp : Nat
  wordCount : Nat
  words : List Nat
  deriving DecidableEq, Repr

/-- A legacy `MIDIPacket` of the `MIDIPacketList` callback: timestamp,
byte length, and the data bytes. -/
structure MIDIPacket where
  timeStamp : Nat
  length : Nat
  data : List Nat
  deriving DecidableEq, Repr

/-- Loop body of the `receiveBlock` for one `MIDIEventPacket`: word count
in 1..4 decodes to one event (kept when truthy), word count above 4 is
skipped with one warning, word count 0 is skipped silently.  Returns the
events contributed by this packet and the number of warnings logged. -/
def handleEventPacket (p : MIDIEventPacket) : List (Nat × Event) × Nat :=
  if p.wordCount ≠ 0 ∧ p.wordCount ≤ 4 then
    let e := Event.fromRawData p.words p.wordCount
    if e.toBool then ([(p.timeStamp, e)], 0) else ([], 0)
  else if p.wordCount > 4 then ([], 1)
  else ([], 0)

/-- `memcpy(&message, packet->data, min(sizeof(message), packet->length))`:
pack the first `min 4 length` data bytes little-endian into one 32-bit
message word. -/
def packMessage (data : List Nat) (length : Nat) : Nat :=
  ((data.take (min 4 length)).enum.foldl
    (fun acc ib => acc + (ib.2 % 256) * 256 ^ ib.1) 0)

/-- Loop body of the legacy `readBlock` for one `MIDIPacket`. -/
def handleMIDIPacket (p : MIDIPacket) : List (Nat × Event) × Nat :=
  if p.length ≠ 0 ∧ p.length ≤ 4 then
    let e := Event.fromMIDI10Package (packMessage p.data p.length)
    if e.toBool then ([(p.timeStamp, e)], 0) else ([], 0)
  else if p.length > 4 then ([], 1)
  else ([], 0)

/-- The `receiveBlock` loop over a delivered batch: events accumulated in
packet order, warnings counted. -/
def processPackets : List MIDIEventPacket → List (Nat × Event) × Nat
  | [] => ([], 0)
  | p :: rest =>
    let here := handleEventPacket p
    let others := processPackets rest
    (here.1 ++ others.1, here.2 + others.2)

/-- The single `doEventsRecived(events)` call at the end of the
`receiveBlock`: the whole batch's events are delivered as one batch. -/
def deliveredBatches (ps : List MIDIEventPacket) : List (List (Nat × Event)) :=
  [(processPackets ps).1]

/-! ## Operations as a step function (for the state invariant) -/

/-- The operations of the module that mutate connection state. -/
inductive Op where
  | connectOp (deviceID : String)
  | disconnectOp
  | runOp
  | stopOp
  | notificationOp (n : MIDINotificationMsg)

/-- Apply one operation to the port state (the state a C++ caller
observes afterwards, also when `connect` lets an exception escape). -/
def applyOp (os : OS) (s : PortState) : Op → PortState
  | Op.connectOp deviceID => (connect os s deviceID).1
  | Op.disconnectOp => disconnect os s
  | Op.runOp => (run os s).1
  | Op.stopOp => (stop os s).1
  | Op.notificationOp n => (onCoreMidiNotificationReceived os s n).1

/-- The connection-state invariant of the spec: `running == true` implies
a non-null source handle and a non-empty device identifier. -/
def connInvariant (s : PortState) : Prop :=
  s.m_running = true → s.core.sourceId ≠ 0 ∧ s.m_deviceID ≠ ""

instance (s : PortState) : Decidable (connInvariant s) := by
  unfold connInvariant; infer_instance

/-! ## Concrete environments and states used in witnesses -/

/-- An OS service with no sources at all (and failed handle creation is a
port state whose handles are 0, e.g. `constructedState`). -/
def osNone : OS :=
  { numSources := 0
    getSource := fun _ => 0
    displayName := fun _ => none
    connectSource := fun _ _ => noErr
    disconnectSource := fun _ _ => noErr }

/-- An OS service exposing two sources "Keyboard A" (index 0, handle 3)
and "Keyboard B" (index 1, handle 5); all bind/unbind calls succeed. -/
def osTwo : OS :=
  { numSources := 2
    getSource := fun n => if n = 0 then 3 else if n = 1 then 5 else 0
    displayName := fun r =>
      if r = 3 then some "Keyboard A" else if r = 5 then some "Keyboard B" else none
    connectSource := fun _ _ => noErr
    disconnectSource := fun _ _ => noErr }

/-- An OS service where source resolution works (index 0 ↦ handle 3,
index 1 ↦ handle 5) but `MIDIPortConnectSource` fails. -/
def osBindFails : OS :=
  { numSources := 2
    getSource := fun n => if n = 0 then 3 else if n = 1 then 5 else 0
    displayName := fun r =>
      if r = 3 then some "Keyboard A" else if r = 5 then some "Keyboard B" else none
    connectSource := fun _ _ => (-50 : Int)
    disconnectSource := fun _ _ => noErr }

/-- A port right after successful `initCore`: handles created, nothing
connected. -/
def stReady : PortState :=
  { core := { client := 1, inputPort := 2, sourceId := 0, deviceID := -1 }
    m_deviceID := ""
    m_running := false }

/-- A port connected and running on source "0" (handle 3). -/
def stConnected : PortState :=
  { core := { client := 1, inputPort := 2, sourceId := 3, deviceID := 0 }
    m_deviceID := "0"
    m_running := true }

/-- A state that is running but not connected (source handle null).  Not
reachable through the module's own operations, since they maintain
`connInvariant`. -/
def stRunningNotConnected : PortState :=
  { core := { client := 1, inputPort := 2, sourceId := 0, deviceID := -1 }
    m_deviceID := ""
    m_running := true }

/-! ## Helper lemmas -/

theorem stop_core (os : OS) (s : PortState) : ((stop os s).1).core = s.core := by
  unfold stop
  split <;> rfl

theorem stop_m_deviceID (os : OS) (s : PortState) :
    ((stop os s).1).m_deviceID = s.m_deviceID := by
  unfold stop
  split <;> rfl

theorem stop_running_of_connected (os : OS) (s : PortState)
    (h : isConnected s = true) : ((stop os s).1).m_running = false := by
  unfold stop
  rw [if_neg (by simp [h])]

theorem isConnected_disconnect (os : OS) (s : PortState) :
    isConnected (disconnect os s) = false := by
  unfold disconnect
  split
  · next h => simpa using h
  · simp [isConnected]

theorem disconnect_client (os : OS) (s : PortState) :
    (disconnect os s).core.client = s.core.client := by
  unfold disconnect
  split
  · rfl
  · show ((stop os s).1).core.client = s.core.client
    rw [stop_core]

theorem disconnect_inputPort (os : OS) (s : PortState) :
    (disconnect os s).core.inputPort = s.core.inputPort := by
  unfold disconnect
  split
  · rfl
  · show ((stop os s).1).core.inputPort = s.core.inputPort
    rw [stop_core]

theorem disconnect_running_of_connected (os : OS) (s : PortState)
    (h : isConnected s = true) : (disconnect os s).m_running = false := by
  unfold disconnect
  rw [if_neg (by simp [h])]
  exact stop_running_of_connected os s h

theorem disconnect_m_deviceID_of_connected (os : OS) (s : PortState)
    (h : isConnected s = true) : (disconnect os s).m_deviceID = "" := by
  unfold disconnect
  rw [if_neg (by simp [h])]

theorem connInvariant_of_running_false (s : PortState)
    (h : s.m_running = false) : connInvariant s := by
  intro hr
  rw [h] at hr
  cases hr

theorem isConnected_elim (s : PortState) (h : isConnected s = true) :
    s.core.sourceId ≠ 0 ∧ s.m_deviceID ≠ "" := by
  simpa [isConnected] using h

theorem stoi_ok_ne_empty (id : String) (n : Int)
    (h : stoi id = Except.ok n) : id ≠ "" := by
  intro heq
  rw [heq] at h
  simp [stoi, leadingNat] at h

theorem connInvariant_stop (os : OS) (s : PortState) (h : connInvariant s) :
    connInvariant ((stop os s).1) := by
  unfold stop
  split
  · exact h
  · exact connInvariant_of_running_false _ rfl

theorem connInvariant_disconnect (os : OS) (s : PortState)
    (h : connInvariant s) : connInvariant (disconnect os s) := by
  unfold disconnect
  split
  · exact h
  · next hc =>
    have hconn : isConnected s = true := by simpa using hc
    exact connInvariant_of_running_false _ (stop_running_of_connected os s hconn)

theorem connInvariant_run (os : OS) (s : PortState) (h : connInvariant s) :
    connInvariant ((run os s).1) := by
  simp only [run]
  split
  · exact h
  · next hc =>
    have hconn : isConnected s = true := by simpa using hc
    split
    · intro _
      exact isConnected_elim s hconn
    · exact connInvariant_of_running_false _ rfl

theorem pre_disconnect_running_false (os : OS) (s : PortState)
    (h : connInvariant s) :
    (if isConnected s then disconnect os s else s).m_running = false := by
  split
  · next hc => exact disconnect_running_of_connected os s hc
  · next hc =>
    by_contra hr
    have hr' : s.m_running = true := by
      cases hmr : s.m_running
      · exact absurd hmr hr
      · rfl
    have := h hr'
    exact hc (by simp [isConnected, this.1, this.2])

theorem connInvariant_connectBody (os : OS) (s : PortState) (id : String)
    (hrun : s.m_running = false) : connInvariant ((connectBody os s id).1) := by
  simp only [connectBody]
  split
  · exact connInvariant_of_running_false _ hrun
  · split
    · exact connInvariant_of_running_false _ hrun
    · split
      · exact connInvariant_of_running_false _ hrun
      · split
        · exact connInvariant_of_running_false _ hrun
        · exact connInvariant_run os _ (connInvariant_of_running_false _ hrun)

theorem connInvariant_connect (os : OS) (s : PortState) (id : String)
    (h : connInvariant s) : connInvariant ((connect os s id).1) :=
  connInvariant_connectBody os _ id (pre_disconnect_running_false os s h)

theorem handler_state (os : OS) (s : PortState) (n : MIDINotificationMsg) :
    (onCoreMidiNotificationReceived os s n).1 = s
      ∨ (onCoreMidiNotificationReceived os s n).1 = disconnect os s := by
  cases n with
  | objectAdded childType child sizeOk =>
    simp only [onCoreMidiNotificationReceived]
    split
    · exact Or.inl rfl
    · split
      · exact Or.inl rfl
      · exact Or.inl rfl
  | objectRemoved childType child sizeOk =>
    simp only [onCoreMidiNotificationReceived]
    split
    · exact Or.inl rfl
    · split
      · exact Or.inl rfl
      · split
        · exact Or.inr rfl
        · exact Or.inl rfl
  | propertyChanged objectType propertyName sizeOk =>
    simp only [onCoreMidiNotificationReceived]
    split
    · exact Or.inl rfl
    · split
      · exact Or.inl rfl
      · split
        · exact Or.inl rfl
        · exact Or.inl rfl
  | setupChanged => exact Or.inl rfl
  | thruConnectionsChanged => exact Or.inl rfl
  | serialPortOwnerChanged => exact Or.inl rfl
  | ioError => exact Or.inl rfl

theorem connInvariant_handler (os : OS) (s : PortState)
    (n : MIDINotificationMsg) (h : connInvariant s) :
    connInvariant ((onCoreMidiNotificationReceived os s n).1) := by
  rcases handler_state os s n with heq | heq <;> rw [heq]
  · exact h
  · exact connInvariant_disconnect os s h

theorem handleEventPacket_characterization (p : MIDIEventPacket) :
    handleEventPacket p
      = (if 1 ≤ p.wordCount ∧ p.wordCount ≤ 4
           then [(p.timeStamp, Event.fromRawData p.words p.wordCount)] else [],
         if 4 < p.wordCount then 1 else 0) := by
  unfold handleEventPacket
  split_ifs with h1 h2 h3 h4 h5 <;>
    first
      | rfl
      | (exfalso; omega)

/-! ## Claim theorems -/

/-- C1: every MIDI packet whose word/byte count is in the inclusive range
1..4, handled by the packet-decode step of the receive callback (both
the macOS ≥ 11 `MIDIEventList` variant and the legacy `MIDIPacketList`
variant), produces exactly one Event, and the Event is paired with that
packet's timestamp unchanged. -/
theorem packet_in_range_decodes_to_one_event
    (p : MIDIEventPacket) (q : MIDIPacket)
    (hp1 : 1 ≤ p.wordCount) (hp2 : p.wordCount ≤ 4)
    (hq1 : 1 ≤ q.length) (hq2 : q.length ≤ 4) :
    handleEventPacket p
        = ([(p.timeStamp, Event.fromRawData p.words p.wordCount)], 0)
      ∧ handleMIDIPacket q
        = ([(q.timeStamp, Event.fromMIDI10Package (packMessage q.data q.length))], 0) := by
  constructor
  · have h0 : p.wordCount ≠ 0 := by omega
    simp [handleEventPacket, h0, hp2, Event.toBool]
  · have h0 : q.length ≠ 0 := by omega
    simp [handleMIDIPacket, h0, hq2, Event.toBool]

/-- Witness for C1 at a 2-word event packet and a 3-byte legacy packet. -/
theorem packet_in_range_decodes_to_one_event_witness :
    handleEventPacket ⟨100, 2, [64, 7]⟩
        = ([(100, Event.fromRawData [64, 7] 2)], 0)
      ∧ handleMIDIPacket ⟨9, 3, [144, 60, 100]⟩
        = ([(9, Event.fromMIDI10Package (packMessage [144, 60, 100] 3))], 0) :=
  packet_in_range_decodes_to_one_event ⟨100, 2, [64, 7]⟩ ⟨9, 3, [144, 60, 100]⟩
    (by decide) (by decide) (by decide) (by decide)

/-- C2: the decode loop of the receive callback skips packets of count 0
silently, warns once and skips for each packet of count above 4,
accumulates decoded events in packet order, and delivers them as one
single batch; the batch with sizes [2, 0, 6] yields exactly one delivered
event and exactly one warning. -/
theorem batch_decode_order_skip_warn :
    (∀ ps : List MIDIEventPacket,
        (processPackets ps).1
            = ps.filterMap (fun p =>
                if 1 ≤ p.wordCount ∧ p.wordCount ≤ 4
                  then some (p.timeStamp, Event.fromRawData p.words p.wordCount)
                  else none)
          ∧ (processPackets ps).2
            = (ps.filter (fun p => decide (4 < p.wordCount))).length
          ∧ deliveredBatches ps = [(processPackets ps).1])
      ∧ deliveredBatches
          [⟨10, 2, [64, 7]⟩, ⟨11, 0, []⟩, ⟨12, 6, [1, 2, 3, 4, 5, 6]⟩]
          = [[(10, Event.fromRawData [64, 7] 2)]]
      ∧ (processPackets
          [⟨10, 2, [64, 7]⟩, ⟨11, 0, []⟩, ⟨12, 6, [1, 2, 3, 4, 5, 6]⟩]).2 = 1 := by
  refine ⟨fun ps => ?_, by decide, by decide⟩
  induction ps with
  | nil => exact ⟨rfl, rfl, rfl⟩
  | cons p rest ih =>
    refine ⟨?_, ?_, rfl⟩
    · show (handleEventPacket p).1 ++ (processPackets rest).1 = _
      rw [ih.1, handleEventPacket_characterization, List.filterMap_cons]
      by_cases h : 1 ≤ p.wordCount ∧ p.wordCount ≤ 4
      · simp [h]
      · simp [h]
    · show (handleEventPacket p).2 + (processPackets rest).2 = _
      rw [ih.2.1, handleEventPacket_characterization]
      by_cases h : 4 < p.wordCount
      · simp [List.filter_cons, h, Nat.add_comm]
      · simp [List.filter_cons, h]

/-- C4: the device enumeration `devices()` iterates the source indices
with an inclusive bound on both ends — it queries the `count + 1` indices
`0 .. count` rather than exactly the `count` indices `0 .. count-1`. -/
theorem devices_iterates_count_plus_one :
    (∀ n : Nat,
        (queriedIndices n).length = n + 1
          ∧ ∀ i, i ∈ queriedIndices n ↔ i ≤ n)
      ∧ ∀ os : OS,
          devices os = (queriedIndices os.numSources).filterMap (queryDevice os) := by
  refine ⟨fun n => ⟨by simp [queriedIndices], fun i => ?_⟩, fun _ => rfl⟩
  show i ∈ List.range (n + 1) ↔ i ≤ n
  rw [List.mem_range]
  omega

/-- C3 counterexample: after failed initialization (client handle null,
as in `constructedState`), `connect` returns a `MidiFailedConnect`-class
error — not a `MidiNotConnected`-class one as the claim states. -/
theorem connect_failed_init_error_class_counterexample :
    (connect osNone constructedState "0").2
        = Except.ok (Ret.error Err.MidiFailedConnect "failed create client")
      ∧ Err.MidiFailedConnect ≠ Err.MidiNotConnected := by
  refine ⟨rfl, by decide⟩

/-- C3 amended: `connect(deviceId)` after client or input-port creation
failed during initialization returns a `FailedToConnect`-class
(`MidiFailedConnect`) error. -/
theorem connect_failed_init_failed_connect (os : OS) (s : PortState)
    (id : String) (h : s.core.client = 0 ∨ s.core.inputPort = 0) :
    ∃ msg, (connect os s id).2
        = Except.ok (Ret.error Err.MidiFailedConnect msg) := by
  have hc : (if isConnected s then disconnect os s else s).core.client
      = s.core.client := by
    split
    · exact disconnect_client os s
    · rfl
  have hp : (if isConnected s then disconnect os s else s).core.inputPort
      = s.core.inputPort := by
    split
    · exact disconnect_inputPort os s
    · rfl
  unfold connect connectBody
  by_cases hcz : (if isConnected s then disconnect os s else s).core.client = 0
  · rw [if_pos hcz]
    exact ⟨_, rfl⟩
  · rcases h with h | h
    · exact absurd (hc.trans h) hcz
    · rw [if_neg hcz, if_pos (hp.trans h)]
      exact ⟨_, rfl⟩

/-- Witness for C3's amended theorem at a state whose client was never
created. -/
theorem connect_failed_init_failed_connect_witness :
    ∃ msg, (connect osNone constructedState "7").2
        = Except.ok (Ret.error Err.MidiFailedConnect msg) :=
  connect_failed_init_failed_connect osNone constructedState "7" (Or.inl rfl)

theorem connectBody_unresolved (os : OS) (s1 : PortState) (id : String)
    (n : Int) (hc1 : s1.core.client ≠ 0) (hp1 : s1.core.inputPort ≠ 0)
    (hs : stoi id = Except.ok n) (hg : os.getSource n = 0) :
    connectBody os s1 id
      = ({ s1 with core := { s1.core with deviceID := n, sourceId := os.getSource n } },
         Except.ok (Ret.error Err.MidiFailedConnect "failed get source")) := by
  unfold connectBody
  rw [if_neg hc1, if_neg hp1]
  split
  · next heq => rw [hs] at heq; cases heq
  · next idx heq =>
    rw [hs] at heq
    injection heq with hni
    subst hni
    dsimp only
    rw [if_pos hg]

/-- C5: a `connect(id)` call where the OS cannot resolve a source at the
parsed index (with the client and port created) returns a
`FailedToConnect`-class error and leaves `isConnected()` false. -/
theorem connect_unresolved_source (os : OS) (s : PortState) (id : String)
    (n : Int) (hc : s.core.client ≠ 0) (hp : s.core.inputPort ≠ 0)
    (hs : stoi id = Except.ok n) (hg : os.getSource n = 0) :
    (connect os s id).2
        = Except.ok (Ret.error Err.MidiFailedConnect "failed get source")
      ∧ isConnected (connect os s id).1 = false := by
  have hc1 : (if isConnected s then disconnect os s else s).core.client ≠ 0 := by
    split
    · rw [disconnect_client]; exact hc
    · exact hc
  have hp1 : (if isConnected s then disconnect os s else s).core.inputPort ≠ 0 := by
    split
    · rw [disconnect_inputPort]; exact hp
    · exact hp
  have hbody := connectBody_unresolved os
    (if isConnected s then disconnect os s else s) id n hc1 hp1 hs hg
  unfold connect
  rw [hbody]
  exact ⟨rfl, by simp [isConnected, hg]⟩

/-- Witness for C5: `connect("99")` with only two sources present. -/
theorem connect_unresolved_source_witness :
    (connect osTwo stReady "99").2
        = Except.ok (Ret.error Err.MidiFailedConnect "failed get source")
      ∧ isConnected (connect osTwo stReady "99").1 = false :=
  connect_unresolved_source osTwo stReady "99" 99
    (by decide) (by decide) rfl rfl

/-- C6: a source-removed notification whose removed object matches the
currently connected source makes the handler disconnect strictly before
the devices-changed notification fires: the trace is exactly
[disconnected, notify], the port state at the notify already has
`isConnected` false, and the handler's final state is disconnected. -/
theorem source_removed_disconnects_before_notify (os : OS) (s : PortState)
    (child : Nat) (h1 : isConnected s = true) (h2 : child = s.core.sourceId) :
    (onCoreMidiNotificationReceived os s
        (MIDINotificationMsg.objectRemoved MIDIObjectType.source child true)).2
        = [⟨HandlerAction.disconnected, disconnect os s⟩,
           ⟨HandlerAction.devicesChangedNotify, disconnect os s⟩]
      ∧ isConnected (disconnect os s) = false
      ∧ isConnected (onCoreMidiNotificationReceived os s
          (MIDINotificationMsg.objectRemoved MIDIObjectType.source child true)).1
        = false := by
  have hcond : (isConnected s && child == s.core.sourceId) = true := by
    rw [h1, h2]
    simp
  refine ⟨?_, isConnected_disconnect os s, ?_⟩
  · simp only [onCoreMidiNotificationReceived]
    simp [hcond]
  · simp only [onCoreMidiNotificationReceived]
    simp [hcond, isConnected_disconnect]

/-- Witness for C6: removal of the object backing the connected source. -/
theorem source_removed_disconnects_before_notify_witness :
    (onCoreMidiNotificationReceived osTwo stConnected
        (MIDINotificationMsg.objectRemoved MIDIObjectType.source 3 true)).2
        = [⟨HandlerAction.disconnected, disconnect osTwo stConnected⟩,
           ⟨HandlerAction.devicesChangedNotify, disconnect osTwo stConnected⟩]
      ∧ isConnected (disconnect osTwo stConnected) = false
      ∧ isConnected (onCoreMidiNotificationReceived osTwo stConnected
          (MIDINotificationMsg.objectRemoved MIDIObjectType.source 3 true)).1
        = false :=
  source_removed_disconnects_before_notify osTwo stConnected 3 rfl rfl

/-- C7 counterexample: `stop()` called in a (module-unreachable) state
that is running but not connected takes the early-return path and leaves
the running flag true — so "every call to stop() leaves the running flag
false when it returns" is not literally true of the function. -/
theorem stop_not_connected_keeps_running_counterexample :
    isConnected stRunningNotConnected = false
      ∧ (stop osTwo stRunningNotConnected).1.m_running = true := by
  exact ⟨rfl, rfl⟩

/-- C7 amended: in every state satisfying the module's invariant that
running implies connected (which covers all states the module's own
operations produce), `stop()` leaves running false when it returns; on a
not-connected device it only logs an error and returns the state
unchanged; a `kMIDINoConnection` unbind result is treated as benign (an
info log); any other non-success result is logged as an error. -/
theorem stop_clears_running (os : OS) (s : PortState)
    (h : s.m_running = true → isConnected s = true) :
    (stop os s).1.m_running = false
      ∧ (isConnected s = false →
          (stop os s).1 = s
            ∧ (stop os s).2 = [LogMsg.error "midi port is not connected"])
      ∧ (isConnected s = true →
          os.disconnectSource s.core.inputPort s.core.sourceId = kMIDINoConnection →
          (stop os s).2 = [LogMsg.info "wasn't started"])
      ∧ (isConnected s = true →
          os.disconnectSource s.core.inputPort s.core.sourceId ≠ kMIDINoConnection →
          os.disconnectSource s.core.inputPort s.core.sourceId ≠ noErr →
          (stop os s).2 = [LogMsg.error "can't disconnect midi port"]) := by
  refine ⟨?_, ?_, ?_, ?_⟩
  · by_cases hconn : isConnected s = true
    · exact stop_running_of_connected os s hconn
    · have hnc : isConnected s = false := by
        cases hmr : isConnected s
        · rfl
        · exact absurd hmr hconn
      have hr : s.m_running = false := by
        cases hmr : s.m_running
        · rfl
        · rw [h hmr] at hnc
          cases hnc
      simp only [stop]
      rw [if_pos (by simp [hnc])]
      exact hr
  · intro hnc
    simp only [stop]
    rw [if_pos (by simp [hnc])]
    exact ⟨rfl, rfl⟩
  · intro hconn hres
    simp only [stop]
    rw [if_neg (by simp [hconn]), if_pos hres]
  · intro hconn hres hne
    simp only [stop]
    rw [if_neg (by simp [hconn]), if_neg hres, if_neg hne]

/-- Witness for C7's amended theorem on a connected, running port. -/
theorem stop_clears_running_witness :
    (stop osTwo stConnected).1.m_running = false
      ∧ (isConnected stConnected = false →
          (stop osTwo stConnected).1 = stConnected
            ∧ (stop osTwo stConnected).2
              = [LogMsg.error "midi port is not connected"])
      ∧ (isConnected stConnected = true →
          osTwo.disconnectSource stConnected.core.inputPort
              stConnected.core.sourceId = kMIDINoConnection →
          (stop osTwo stConnected).2 = [LogMsg.info "wasn't started"])
      ∧ (isConnected stConnected = true →
          osTwo.disconnectSource stConnected.core.inputPort
              stConnected.core.sourceId ≠ kMIDINoConnection →
          osTwo.disconnectSource stConnected.core.inputPort
              stConnected.core.sourceId ≠ noErr →
          (stop osTwo stConnected).2
            = [LogMsg.error "can't disconnect midi port"]) :=
  stop_clears_running osTwo stConnected (fun _ => rfl)

/-- C8 (refuting the no-crash claim on the code): `connect("abc")` — a
device id with no leading integer — makes `std::stoi` throw
`std::invalid_argument`, and the exception propagates out of `connect`
uncaught, so `connect` does throw for non-integer device ids. -/
theorem connect_nonnumeric_id_throws :
    (connect osTwo stReady "abc").2 = Except.error CppExn.invalidArgument := rfl

/-- C9: the invariant "running implies a non-null source handle and a
non-empty device identifier" holds in the constructed state and is
preserved by every operation of the module: connect, disconnect, run,
stop, and the notification handler. -/
theorem conn_invariant_construction_and_preservation (os : OS)
    (s : PortState) (op : Op) (h : connInvariant s) :
    connInvariant constructedState ∧ connInvariant (applyOp os s op) := by
  refine ⟨by decide, ?_⟩
  cases op with
  | connectOp id => exact connInvariant_connect os s id h
  | disconnectOp => exact connInvariant_disconnect os s h
  | runOp => exact connInvariant_run os s h
  | stopOp => exact connInvariant_stop os s h
  | notificationOp n => exact connInvariant_handler os s n h

/-- Witness for C9 on a connected running port performing a reconnect. -/
theorem conn_invariant_construction_and_preservation_witness :
    connInvariant constructedState
      ∧ connInvariant (applyOp osTwo stConnected (Op.connectOp "1")) :=
  conn_invariant_construction_and_preservation osTwo stConnected
    (Op.connectOp "1") (by decide)

/-- C10 counterexample: `connect("1")` while connected to "0", with the
new source resolving but the OS bind call failing, returns a
`FailedToConnect` error — yet `isConnected()` is true afterwards (the
port retains the new source identity), so the device is not "left fully
disconnected" as the claim states. -/
theorem reconnect_failure_counterexample :
    (connect osBindFails stConnected "1").2
        = Except.ok (Ret.error Err.MidiFailedConnect "")
      ∧ isConnected (connect osBindFails stConnected "1").1 = true
      ∧ (connect osBindFails stConnected "1").1.m_running = false := by
  exact ⟨rfl, rfl, rfl⟩

/-- C10 amended: when `connect(newId)` is called while already connected
(to a different id) and the new connection fails, the previous connection
is not restored — running is false and the old device identifier is gone.
If the failure is that the new source cannot be resolved, the device is
left fully disconnected (`isConnected()` false); if instead the bind
fails, the port retains the new source identity, so `isConnected()`
remains true while running stays false. -/
theorem reconnect_failure_not_restored (os : OS) (s : PortState)
    (id : String) (h1 : isConnected s = true) (h2 : id ≠ s.m_deviceID)
    (h3 : (connect os s id).2 ≠ Except.ok Ret.success) :
    (connect os s id).1.m_running = false
      ∧ (connect os s id).1.m_deviceID ≠ s.m_deviceID
      ∧ ∀ n, stoi id = Except.ok n → os.getSource n = 0 →
          isConnected (connect os s id).1 = false := by
  have hd_run : (disconnect os s).m_running = false :=
    disconnect_running_of_connected os s h1
  have hd_dev : (disconnect os s).m_deviceID = "" :=
    disconnect_m_deviceID_of_connected os s h1
  have hold : s.m_deviceID ≠ "" := (isConnected_elim s h1).2
  have hconnd : connect os s id = connectBody os (disconnect os s) id := by
    simp only [connect, if_pos h1]
  rw [hconnd] at h3 ⊢
  by_cases hcz : (disconnect os s).core.client = 0
  · have hbody : connectBody os (disconnect os s) id
        = (disconnect os s,
           Except.ok (Ret.error Err.MidiFailedConnect "failed create client")) := by
      simp only [connectBody, if_pos hcz]
    rw [hbody]
    refine ⟨hd_run, ?_, ?_⟩
    · show (disconnect os s).m_deviceID ≠ s.m_deviceID
      rw [hd_dev]
      exact Ne.symm hold
    · intro n _ _
      exact isConnected_disconnect os s
  · by_cases hpz : (disconnect os s).core.inputPort = 0
    · have hbody : connectBody os (disconnect os s) id
          = (disconnect os s,
             Except.ok (Ret.error Err.MidiFailedConnect "failed create port")) := by
        simp only [connectBody, if_neg hcz, if_pos hpz]
      rw [hbody]
      refine ⟨hd_run, ?_, ?_⟩
      · show (disconnect os s).m_deviceID ≠ s.m_deviceID
        rw [hd_dev]
        exact Ne.symm hold
      · intro n _ _
        exact isConnected_disconnect os s
    · cases hstoi : stoi id with
      | error exn =>
        have hbody : connectBody os (disconnect os s) id
            = (disconnect os s, Except.error exn) := by
          simp only [connectBody, if_neg hcz, if_neg hpz, hstoi]
        rw [hbody]
        refine ⟨hd_run, ?_, ?_⟩
        · show (disconnect os s).m_deviceID ≠ s.m_deviceID
          rw [hd_dev]
          exact Ne.symm hold
        · intro n hn _
          cases hn
      | ok idx =>
        by_cases hsz : os.getSource idx = 0
        · have hbody := connectBody_unresolved os (disconnect os s) id idx
            hcz hpz hstoi hsz
          rw [hbody]
          refine ⟨hd_run, ?_, ?_⟩
          · show (disconnect os s).m_deviceID ≠ s.m_deviceID
            rw [hd_dev]
            exact Ne.symm hold
          · intro n hn hg
            simp [isConnected, hsz]
        · have hne : id ≠ "" := stoi_ok_ne_empty id idx hstoi
          have hconn3 : isConnected
              ({ core := { client := (disconnect os s).core.client,
                           inputPort := (disconnect os s).core.inputPort,
                           sourceId := os.getSource idx, deviceID := idx }
                 m_deviceID := id
                 m_running := (disconnect os s).m_running } : PortState) = true := by
            simp [isConnected, hsz, hne]
          by_cases hok : os.connectSource (disconnect os s).core.inputPort
              (os.getSource idx) = noErr
          · exfalso
            apply h3
            simp only [connectBody, if_neg hcz, if_neg hpz, hstoi]
            rw [if_neg hsz]
            simp only [run, hconn3]
            simp [hok]
          · have hbody : (connectBody os (disconnect os s) id).1
                = { core := { client := (disconnect os s).core.client,
                              inputPort := (disconnect os s).core.inputPort,
                              sourceId := os.getSource idx, deviceID := idx }
                    m_deviceID := id
                    m_running := false } := by
              simp only [connectBody, if_neg hcz, if_neg hpz, hstoi]
              rw [if_neg hsz]
              simp only [run, hconn3]
              simp [hok]
            refine ⟨?_, ?_, ?_⟩
            · rw [hbody]
            · rw [hbody]
              exact h2
            · intro n hn hg
              injection hn with hni
              rw [← hni] at hg
              exact absurd hg hsz

/-- Witness for C10's amended theorem: the bind-failure reconnect. -/
theorem reconnect_failure_not_restored_witness :
    (connect osBindFails stConnected "1").1.m_running = false
      ∧ (connect osBindFails stConnected "1").1.m_deviceID
          ≠ stConnected.m_deviceID
      ∧ ∀ n, stoi "1" = Except.ok n → osBindFails.getSource n = 0 →
          isConnected (connect osBindFails stConnected "1").1 = false :=
  reconnect_failure_not_restored osBindFails stConnected "1"
    rfl (by decide) (by intro hc; cases hc)

end CoreMidi
